import Mathlib

/-!
# Verification of the scene-video generation pipeline (`generate_video.py`)

A shallow embedding of the control logic of `generate_video.py`:

* the retrying stages `generate_image` and `generate_video_from_image`
  (modelled as pure functions over a per-attempt outcome environment,
  recording the sleeps performed and the files written),
* the ffmpeg-command construction of `create_fallback_video`,
* the exception behaviour of the subprocess-based stages,
* the per-scene orchestration loop of `main` (modelled as a fold over
  scenes, recording the external calls made).

Modelling conventions:

* Python floats are modelled as rationals (`ℚ`); `int()` truncation toward
  zero is `pyInt`.
* `str(e)` of a caught exception is modelled as a `String`; the `'429' in s`
  substring tests of the source are `strContains`.
* `time.sleep(w)` is modelled by recording `w` in a `sleeps` trace.
-/

namespace GenerateVideo

/-- `sub.isPrefixOf` at some suffix of the list: the substring test backing
Python's `in` operator on strings. -/
def subOfChars (sub : List Char) : List Char → Bool
  | [] => sub.isEmpty
  | c :: t => sub.isPrefixOf (c :: t) || subOfChars sub t

/-- Python's `sub in s` on strings. -/
def strContains (s sub : String) : Bool :=
  subOfChars sub.data s.data

/-- Python's `int()` on a float (here: a rational): truncation toward zero. -/
def pyInt (q : ℚ) : Int :=
  if 0 ≤ q then Rat.floor q else Rat.ceil q

/-- The single-quote character, used inside ffmpeg filter expressions. -/
def sq : String :=
  String.singleton (Char.ofNat 39)

/-! ## Error classification (`generate_image`, lines 134 and 138;
`generate_video_from_image`, line 207)

The source classifies a caught exception by substring tests on `str(e)`. -/

/-- `'429' in error_str or 'RESOURCE_EXHAUSTED' in error_str`. -/
def isQuotaError (e : String) : Bool :=
  strContains e "429" || strContains e "RESOURCE_EXHAUSTED"

/-- `'503' in error_str or 'UNAVAILABLE' in error_str`. -/
def isUnavailableError (e : String) : Bool :=
  strContains e "503" || strContains e "UNAVAILABLE"

/-- `min(2 ** attempt * 10, 120)`: the image stage's quota backoff. -/
def imageQuotaWait (attempt : Nat) : Nat :=
  min (2 ^ attempt * 10) 120

/-- `min(2 ** attempt * 5, 60)`: the image stage's unavailable backoff. -/
def imageUnavailableWait (attempt : Nat) : Nat :=
  min (2 ^ attempt * 5) 60

/-- `min(2 ** attempt * 30, 180)`: the animation stage's quota backoff. -/
def videoQuotaWait (attempt : Nat) : Nat :=
  min (2 ^ attempt * 30) 180

/-! ## `generate_image` (lines 110-147)

One attempt of the remote text-to-image operation either returns a response
carrying a list of generated images (the `for generated_image in
response.generated_images` loop writes and returns `True` on the first one;
an empty list falls through to the next attempt), or raises an exception
whose `str` is a message string. -/

/-- Outcome of one `client.models.generate_images` attempt. -/
inductive ImgAttempt where
  | ok (images : List String)
  | err (msg : String)
deriving DecidableEq

/-- Result of a `generate_image` run: the returned Bool, the files written
(path, image bytes), the sleeps performed, and how many loop iterations ran. -/
structure ImgResult where
  success : Bool
  written : List (String × String)
  sleeps : List Nat
  attemptsMade : Nat
deriving DecidableEq

/-- The `for attempt in range(max_retries)` loop of `generate_image`, run on
an explicit list of iteration indices, with `env a` the outcome of the remote
call at iteration `a`.  Falling off the end of the list is the trailing
`return False` (line 147). -/
def generateImageGo (outputPath : String) (maxRetries : Nat)
    (env : Nat → ImgAttempt) : List Nat → ImgResult
  | [] => { success := false, written := [], sleeps := [], attemptsMade := 0 }
  | attempt :: later =>
    match env attempt with
    | .ok [] =>
        -- empty response.generated_images: the inner for body never runs
        let rest := generateImageGo outputPath maxRetries env later
        { rest with attemptsMade := rest.attemptsMade + 1 }
    | .ok (img :: _) =>
        -- first generated image is written; return True
        { success := true, written := [(outputPath, img)], sleeps := [],
          attemptsMade := 1 }
    | .err msg =>
        if isQuotaError msg then
          let rest := generateImageGo outputPath maxRetries env later
          { rest with sleeps := imageQuotaWait attempt :: rest.sleeps,
                      attemptsMade := rest.attemptsMade + 1 }
        else if isUnavailableError msg then
          let rest := generateImageGo outputPath maxRetries env later
          { rest with sleeps := imageUnavailableWait attempt :: rest.sleeps,
                      attemptsMade := rest.attemptsMade + 1 }
        else if attempt = maxRetries - 1 then
          { success := false, written := [], sleeps := [], attemptsMade := 1 }
        else
          let rest := generateImageGo outputPath maxRetries env later
          { rest with sleeps := 5 :: rest.sleeps,
                      attemptsMade := rest.attemptsMade + 1 }

/-- `generate_image`: the loop over `range(max_retries)` (default 5). -/
def generateImage (outputPath : String) (maxRetries : Nat)
    (env : Nat → ImgAttempt) : ImgResult :=
  generateImageGo outputPath maxRetries env (List.range maxRetries)

/-! ## `generate_video_from_image` (lines 150-215)

One attempt either completes the long-running operation and saves the video
(returning `True`), or raises an exception with message `msg`.  The except
block classifies only the quota class; everything else gets a fixed 10 s
sleep, or an immediate `return False` on the final attempt. -/

/-- Outcome of one animation attempt (submit, poll to completion, download). -/
inductive VidAttempt where
  | ok
  | err (msg : String)
deriving DecidableEq

/-- Result of a `generate_video_from_image` run. -/
structure VidResult where
  success : Bool
  sleeps : List Nat
  attemptsMade : Nat
deriving DecidableEq

/-- The `for attempt in range(max_retries)` loop of
`generate_video_from_image`, run on an explicit list of iteration indices.
Falling off the end of the list is the trailing `return False` (line 215). -/
def generateVideoGo (maxRetries : Nat) (env : Nat → VidAttempt) :
    List Nat → VidResult
  | [] => { success := false, sleeps := [], attemptsMade := 0 }
  | attempt :: later =>
    match env attempt with
    | .ok =>
        { success := true, sleeps := [], attemptsMade := 1 }
    | .err msg =>
        if isQuotaError msg then
          let rest := generateVideoGo maxRetries env later
          { rest with sleeps := videoQuotaWait attempt :: rest.sleeps,
                      attemptsMade := rest.attemptsMade + 1 }
        else if attempt = maxRetries - 1 then
          { success := false, sleeps := [], attemptsMade := 1 }
        else
          let rest := generateVideoGo maxRetries env later
          { rest with sleeps := 10 :: rest.sleeps,
                      attemptsMade := rest.attemptsMade + 1 }

/-- `generate_video_from_image`: the loop over `range(max_retries)`
(default 3). -/
def generateVideoFromImage (maxRetries : Nat) (env : Nat → VidAttempt) :
    VidResult :=
  generateVideoGo maxRetries env (List.range maxRetries)

/-! ## `create_fallback_video` (lines 281-334)

The function builds a `filter_complex` string (selected by the motion preset)
and a fixed ffmpeg argument list.  Filter strings quote the zoompan
expressions in single quotes (`sq`). -/

/-- The common shape of all five zoompan filter strings:
`[0:v]scale=8000:-1,zoompan=z='Z':d=FRAMES:x='X':y='Y':s=720x1280,setsar=1[v]`. -/
def zoompanFilter (z x y : String) (frames : Int) : String :=
  "[0:v]scale=8000:-1,zoompan=z=" ++ sq ++ z ++ sq ++
    ":d=" ++ toString frames ++
    ":x=" ++ sq ++ x ++ sq ++ ":y=" ++ sq ++ y ++ sq ++
    ":s=720x1280,setsar=1[v]"

/-- The `if motion == ... / elif ... / else` chain choosing `filter_complex`
(lines 285-314); every branch uses `d={int(duration*25)}`. -/
def filterComplex (duration : ℚ) (motion : String) : String :=
  if motion = "slow zoom-in" then
    zoompanFilter "min(zoom+0.0003,1.12)" "iw/2-(iw/zoom/2)" "ih/2-(ih/zoom/2)"
      (pyInt (duration * 25))
  else if motion = "slow outside-in drift" then
    zoompanFilter "min(zoom+0.0002,1.1)" "if(eq(on,1),iw/4,x-0.3)" "ih/2-(ih/zoom/2)"
      (pyInt (duration * 25))
  else if motion = "slow follow" then
    zoompanFilter "1.08" "if(eq(on,1),0,x+0.8)" "ih/2-(ih/zoom/2)"
      (pyInt (duration * 25))
  else if motion = "upward tilt" then
    zoompanFilter "1.1" "iw/2-(iw/zoom/2)" "if(eq(on,1),ih/3,y-0.6)"
      (pyInt (duration * 25))
  else
    zoompanFilter "min(zoom+0.0003,1.1)" "iw/2-(iw/zoom/2)" "ih/2-(ih/zoom/2)"
      (pyInt (duration * 25))

/-- The ffmpeg argument list built by `create_fallback_video` (lines 316-327).
`str(duration)` is modelled by `toString` on the rational. -/
def createFallbackCmd (imagePath outputVideo : String) (duration : ℚ)
    (motion : String) : List String :=
  ["ffmpeg", "-y",
   "-loop", "1",
   "-i", imagePath,
   "-filter_complex", filterComplex duration motion,
   "-map", "[v]",
   "-c:v", "libx264",
   "-t", toString duration,
   "-pix_fmt", "yuv420p",
   "-r", "25",
   outputVideo]

/-- Is `motion` one of the four recognized preset names? -/
def isRecognizedMotion (motion : String) : Bool :=
  motion = "slow zoom-in" || motion = "slow outside-in drift" ||
    motion = "slow follow" || motion = "upward tilt"

/-! ## Exception behaviour of the subprocess-based stages -/

/-- What happens when the stage invokes the external media tool via
`subprocess.run`: the tool exits 0, exits non-zero, or the invocation itself
raises (e.g. `FileNotFoundError` when the binary is missing). -/
inductive SubprocEvent where
  | exitZero
  | exitNonzero (stderr : String)
  | oserror (msg : String)
deriving DecidableEq

/-- A Python exception escaping or being caught at a stage boundary. -/
inductive PyExc where
  | calledProcessError (stderr : String)
  | otherException (msg : String)
deriving DecidableEq

/-- A stage body either returns a Bool or lets an exception propagate. -/
inductive StageOutcome where
  | returns (b : Bool)
  | raises (e : PyExc)
deriving DecidableEq

/-- `create_fallback_video`, lines 329-334: `subprocess.run(cmd, check=True,
capture_output=True)` inside `try`, with `except subprocess.CalledProcessError`
as the only handler.  A non-zero exit is caught and reported as `False`; any
other exception of the invocation propagates out of the stage. -/
def createFallbackOutcome (ev : SubprocEvent) : StageOutcome :=
  match ev with
  | .exitZero => .returns true
  | .exitNonzero _ => .returns false
  | .oserror m => .raises (.otherException m)

/-- `concatenate_videos`, lines 353-359: same `try/except
subprocess.CalledProcessError` shape as `create_fallback_video`. -/
def concatenateVideosOutcome (ev : SubprocEvent) : StageOutcome :=
  match ev with
  | .exitZero => .returns true
  | .exitNonzero _ => .returns false
  | .oserror m => .raises (.otherException m)

/-- `add_text_overlay_to_video`, lines 270-278: `subprocess.run` without
`check=True`; a non-zero `returncode` yields `False`, and the surrounding
`except Exception` catches every other error of the invocation. -/
def addTextOverlayOutcome (ev : SubprocEvent) : StageOutcome :=
  match ev with
  | .exitZero => .returns true
  | .exitNonzero _ => .returns false
  | .oserror _ => .returns false

/-! ## The orchestrator `main` (lines 362-466)

`main` iterates over `SCENES` with two pieces of mutable state: the flag
`use_veo` (initially `True`) and the accumulator `scene_videos`.  We model the
loop as a fold over `(Scene, SceneEnv)` pairs, where `SceneEnv` supplies the
outcome of every external interaction a scene may perform (artifact existence
on disk and the Bool results of the four stage functions), and we record every
stage invocation in a `Call` trace.

A failed animation attempt is assumed not to leave the raw-video artifact on
disk (the source only writes it right before `return True`), so the
re-evaluations of `raw_video.exists()` at lines 401, 416 and 422 agree with
the pre-scene value whenever the veo attempt failed. -/

/-- One entry of `SCENES` (lines 37-79): id, caption text, objective,
camera-motion preset name, image prompt. -/
structure Scene where
  id : Nat
  text : String
  objective : String
  camera : String
  prompt : String
deriving DecidableEq

/-- The environment one scene's processing observes: which artifacts already
exist, and what each stage function would return if invoked. -/
structure SceneEnv where
  rawImageExists : Bool
  rawVideoExists : Bool
  imageOk : Bool
  veoOk : Bool
  fallbackOk : Bool
  overlayOk : Bool
deriving DecidableEq

/-- `OUTPUT_DIR / f"scene_{id}_raw.png"` (line 384). -/
def rawImagePath (id : Nat) : String :=
  "output/scene_" ++ toString id ++ "_raw.png"

/-- `OUTPUT_DIR / f"scene_{id}_raw.mp4"` (line 385). -/
def rawVideoPath (id : Nat) : String :=
  "output/scene_" ++ toString id ++ "_raw.mp4"

/-- `OUTPUT_DIR / f"scene_{id}.mp4"` (line 386). -/
def finalVideoPath (id : Nat) : String :=
  "output/scene_" ++ toString id ++ ".mp4"

/-- `OUTPUT_DIR / "final_video.mp4"` (line 445). -/
def finalOutputPath : String :=
  "output/final_video.mp4"

/-- The `animation_prompt` f-string of `main` (lines 403-406). -/
def animationPrompt (camera : String) : String :=
  "Gentle living painting animation like a Van Gogh artwork coming to life.\n"
    ++ camera ++
    ". Subtle organic movement - brushstrokes seem to flow, colors breathe and shift naturally.\nClouds drift with painted texture, light dances like in impressionist art. Maintain thick impasto oil painting look throughout.\nMovement should feel hand-animated, artistic, dreamlike. NOT realistic motion. 8 seconds of peaceful contemplation."

/-- An invocation of a stage function or of the assembly step, with the
arguments `main` passes. -/
inductive Call where
  | genImage (prompt outputPath : String)
  | genVeo (imagePath prompt outputPath : String)
  | fallback (imagePath outputVideo : String) (duration : ℚ) (motion : String)
  | overlay (inputVideo outputVideo text : String)
  | concat (videoFiles : List String) (outputVideo : String)
deriving DecidableEq

/-- The body of `main`'s `for scene in SCENES:` loop (lines 377-437) for one
scene: takes the current `use_veo` flag and `scene_videos` accumulator,
returns their new values and the trace of stage invocations. -/
def stepScene (useVeo : Bool) (videos : List String) (s : Scene)
    (env : SceneEnv) : Bool × List String × List Call :=
  -- Step 1 (lines 389-395): generate the image unless the artifact exists.
  let imgCalls : List Call :=
    if env.rawImageExists then [] else [.genImage s.prompt (rawImagePath s.id)]
  if !env.rawImageExists && !env.imageOk then
    -- `generate_image` returned False: `continue`, scene abandoned.
    (useVeo, videos, imgCalls)
  else
    -- Step 2 (lines 398-428).
    let veoAttempted := useVeo && !env.rawVideoExists
    let veoCalls : List Call :=
      if veoAttempted then
        [.genVeo (rawImagePath s.id) (animationPrompt s.camera) (rawVideoPath s.id)]
      else []
    let videoCreated1 := veoAttempted && env.veoOk
    -- `use_veo = False` when the veo attempt was made and failed (line 414).
    let useVeo1 := if veoAttempted && !env.veoOk then false else useVeo
    let fbAttempted := !videoCreated1 && !env.rawVideoExists
    let fbCalls : List Call :=
      if fbAttempted then
        [.fallback (rawImagePath s.id) (rawVideoPath s.id) 6 s.camera]
      else []
    let videoCreated :=
      if fbAttempted then env.fallbackOk
      else if env.rawVideoExists then true
      else videoCreated1
    if !videoCreated then
      -- line 426-428: `continue`, scene abandoned.
      (useVeo1, videos, imgCalls ++ veoCalls ++ fbCalls)
    else
      -- Step 3 (lines 431-437): caption overlay; failure appends the raw clip.
      let allCalls := imgCalls ++ veoCalls ++ fbCalls ++
        [.overlay (rawVideoPath s.id) (finalVideoPath s.id) s.text]
      if env.overlayOk then
        (useVeo1, videos ++ [finalVideoPath s.id], allCalls)
      else
        (useVeo1, videos ++ [rawVideoPath s.id], allCalls)

/-- The whole scene loop, folded over the scene list. -/
def runScenes (useVeo : Bool) (videos : List String) :
    List (Scene × SceneEnv) → Bool × List String × List Call
  | [] => (useVeo, videos, [])
  | (s, env) :: rest =>
      let r1 := stepScene useVeo videos s env
      let r2 := runScenes r1.1 r1.2.1 rest
      (r2.1, r2.2.1, r1.2.2 ++ r2.2.2)

/-- The outcome of a whole `main` run: the accumulated `scene_videos`, the
trace of stage/assembly invocations, and whether the final `else` branch
(line 465, "No scenes were successfully generated.") was taken. -/
structure RunResult where
  sceneVideos : List String
  calls : List Call
  noOutputReported : Bool
deriving DecidableEq

/-- `main` after the scene loop (lines 440-465): concatenate if and only if
`scene_videos` is non-empty, else report that no output was produced. -/
def mainRun (scenes : List (Scene × SceneEnv)) : RunResult :=
  let r := runScenes true [] scenes
  if r.2.1.isEmpty then
    { sceneVideos := r.2.1, calls := r.2.2, noOutputReported := true }
  else
    { sceneVideos := r.2.1,
      calls := r.2.2 ++ [.concat r.2.1 finalOutputPath],
      noOutputReported := false }

/-! ## Trace predicates used by the theorems -/

/-- Does the trace contain an animation-stage (`generate_video_from_image`)
invocation? -/
def hasVeoCall : List Call → Bool
  | [] => false
  | .genVeo _ _ _ :: _ => true
  | _ :: t => hasVeoCall t

/-- Does the trace contain an image-stage (`generate_image`) invocation? -/
def hasGenImageCall : List Call → Bool
  | [] => false
  | .genImage _ _ :: _ => true
  | _ :: t => hasGenImageCall t

/-- Does the trace contain a fallback-stage invocation writing `out`? -/
def hasFallbackTo (out : String) : List Call → Bool
  | [] => false
  | .fallback _ o _ _ :: t => o = out || hasFallbackTo out t
  | _ :: t => hasFallbackTo out t

/-- Does the trace contain an assembly (`concatenate_videos`) invocation? -/
def hasConcatCall : List Call → Bool
  | [] => false
  | .concat _ _ :: _ => true
  | _ :: t => hasConcatCall t

/-- Does every animation/fallback invocation in the trace read its source
image from `img`? -/
def callsUseImage (img : String) : List Call → Bool
  | [] => true
  | .genVeo i _ _ :: t => i = img && callsUseImage img t
  | .fallback i _ _ _ :: t => i = img && callsUseImage img t
  | _ :: t => callsUseImage img t

theorem hasVeoCall_append (a b : List Call) :
    hasVeoCall (a ++ b) = (hasVeoCall a || hasVeoCall b) := by
  induction a with
  | nil => simp [hasVeoCall]
  | cons c t ih => cases c <;> simp [hasVeoCall, ih]

theorem hasConcatCall_append (a b : List Call) :
    hasConcatCall (a ++ b) = (hasConcatCall a || hasConcatCall b) := by
  induction a with
  | nil => simp [hasConcatCall]
  | cons c t ih => cases c <;> simp [hasConcatCall, ih]

/-! ## Environments used by concrete instantiations -/

/-- An animation-stage environment whose every attempt raises a
transient-unavailable (503) error. -/
def unavailableEnv : Nat → VidAttempt :=
  fun _ => VidAttempt.err "503 UNAVAILABLE"

/-- An environment whose every attempt raises a quota (429) error. -/
def quotaEnvImg : Nat → ImgAttempt :=
  fun _ => ImgAttempt.err "429"

/-- An animation-stage environment whose every attempt raises a quota
(429) error. -/
def quotaEnvVid : Nat → VidAttempt :=
  fun _ => VidAttempt.err "429"

/-- An image-stage environment whose every attempt succeeds with an empty
`generated_images` array. -/
def okNilEnv : Nat → ImgAttempt :=
  fun _ => ImgAttempt.ok []

/-! ## C4 — quota backoff formula -/

/-- C4: the backoff delay applied after a quota/rate-limit error at attempt
`a` equals `min(base · 2^a, cap)` — base 10, cap 120 in the image stage and
base 30, cap 180 in the animation stage — it is monotonically non-decreasing
in `a`, and it is exactly the sleep both retry loops record on a quota error
at iteration `a`. -/
theorem c4_quota_backoff (a : Nat) :
    imageQuotaWait a = min (10 * 2 ^ a) 120
    ∧ videoQuotaWait a = min (30 * 2 ^ a) 180
    ∧ imageQuotaWait a ≤ imageQuotaWait (a + 1)
    ∧ videoQuotaWait a ≤ videoQuotaWait (a + 1)
    ∧ (∀ (o : String) (n : Nat) (env : Nat → ImgAttempt) (msg : String)
        (later : List Nat), env a = ImgAttempt.err msg → isQuotaError msg = true →
        (generateImageGo o n env (a :: later)).sleeps =
          imageQuotaWait a :: (generateImageGo o n env later).sleeps)
    ∧ (∀ (n : Nat) (env : Nat → VidAttempt) (msg : String) (later : List Nat),
        env a = VidAttempt.err msg → isQuotaError msg = true →
        (generateVideoGo n env (a :: later)).sleeps =
          videoQuotaWait a :: (generateVideoGo n env later).sleeps) := by
  have hpow : 2 ^ a ≤ 2 ^ (a + 1) :=
    Nat.pow_le_pow_right (by norm_num) (Nat.le_succ a)
  refine ⟨by rw [imageQuotaWait, Nat.mul_comm],
          by rw [videoQuotaWait, Nat.mul_comm], ?_, ?_, ?_, ?_⟩
  · exact min_le_min (Nat.mul_le_mul_right 10 hpow) le_rfl
  · exact min_le_min (Nat.mul_le_mul_right 30 hpow) le_rfl
  · intro o n env msg later henv hq
    simp [generateImageGo, henv, hq]
  · intro n env msg later henv hq
    simp [generateVideoGo, henv, hq]

/-- C4 witness: the recorded sleeps at concrete quota-erroring attempts. -/
theorem c4_quota_backoff_witness :
    (generateImageGo "o" 5 quotaEnvImg (1 :: [2])).sleeps =
      imageQuotaWait 1 :: (generateImageGo "o" 5 quotaEnvImg [2]).sleeps
    ∧ (generateVideoGo 3 quotaEnvVid (0 :: [1])).sleeps =
      videoQuotaWait 0 :: (generateVideoGo 3 quotaEnvVid [1]).sleeps :=
  ⟨(c4_quota_backoff 1).2.2.2.2.1 "o" 5 quotaEnvImg "429" [2] rfl (by decide),
   (c4_quota_backoff 0).2.2.2.2.2 3 quotaEnvVid "429" [1] rfl (by decide)⟩

/-! ## C3 — classification of 503/UNAVAILABLE in the animation stage -/

/-- C3: counterexample.  With `max_retries = 3` and every attempt raising a
503/UNAVAILABLE error, the animation stage sleeps 10 s after each non-final
attempt; the claim predicts the exponential waits
`[videoQuotaWait 0, videoQuotaWait 1] = [30, 60]`. -/
theorem c3_counterexample :
    (generateVideoFromImage 3 unavailableEnv).sleeps = [10, 10]
    ∧ isUnavailableError "503 UNAVAILABLE" = true
    ∧ (generateVideoFromImage 3 unavailableEnv).sleeps ≠
        [videoQuotaWait 0, videoQuotaWait 1] := by
  decide

/-- C3 (amended): the animation stage classifies only the quota class.  A
quota error at attempt `a` waits `videoQuotaWait a`; any other error —
including the transient-unavailable (503/UNAVAILABLE) class — waits a fixed
10 seconds, or returns failure immediately if `a` is the final attempt. -/
theorem c3_amended (n : Nat) (env : Nat → VidAttempt) (msg : String)
    (a : Nat) (later : List Nat) (hmsg : env a = VidAttempt.err msg) :
    (isQuotaError msg = true →
        (generateVideoGo n env (a :: later)).sleeps =
          videoQuotaWait a :: (generateVideoGo n env later).sleeps)
    ∧ (isQuotaError msg = false → a ≠ n - 1 →
        (generateVideoGo n env (a :: later)).sleeps =
          10 :: (generateVideoGo n env later).sleeps)
    ∧ (isQuotaError msg = false → a = n - 1 →
        generateVideoGo n env (a :: later) =
          { success := false, sleeps := [], attemptsMade := 1 })
    ∧ isQuotaError "503 UNAVAILABLE" = false
    ∧ isUnavailableError "503 UNAVAILABLE" = true := by
  refine ⟨?_, ?_, ?_, by decide, by decide⟩
  · intro hq
    simp [generateVideoGo, hmsg, hq]
  · intro hq hne
    simp [generateVideoGo, hmsg, hq, hne]
  · intro hq heq
    subst heq
    simp [generateVideoGo, hmsg, hq]

/-- C3 witness: a 503 error at a non-final attempt sleeps exactly 10 s. -/
theorem c3_amended_witness :
    (generateVideoGo 3 unavailableEnv (0 :: [1, 2])).sleeps =
      10 :: (generateVideoGo 3 unavailableEnv [1, 2]).sleeps :=
  (c3_amended 3 unavailableEnv "503 UNAVAILABLE" 0 [1, 2] rfl).2.1
    (by decide) (by decide)

/-! ## C10 — empty generated-images array -/

/-- On an environment whose every attempt returns an empty image list, the
loop writes nothing, sleeps never, and consumes its whole iteration list. -/
theorem generateImageGo_ok_nil (o : String) (n : Nat) (env : Nat → ImgAttempt)
    (l : List Nat) (henv : ∀ a ∈ l, env a = ImgAttempt.ok []) :
    generateImageGo o n env l =
      { success := false, written := [], sleeps := [],
        attemptsMade := l.length } := by
  induction l with
  | nil => rfl
  | cons a t ih =>
      have ha := henv a (List.mem_cons_self a t)
      have ht : ∀ b ∈ t, env b = ImgAttempt.ok [] :=
        fun b hb => henv b (List.mem_cons_of_mem a hb)
      simp [generateImageGo, ha, ih ht]

/-- C10: if every remote text-to-image attempt returns a successful response
with an empty `generated_images` array, `generate_image` writes no file,
treats no attempt as a success, consumes all `max_retries` attempts, and
returns failure. -/
theorem c10_empty_image_response (o : String) (n : Nat)
    (env : Nat → ImgAttempt) (henv : ∀ a, env a = ImgAttempt.ok []) :
    (generateImage o n env).success = false
    ∧ (generateImage o n env).written = []
    ∧ (generateImage o n env).attemptsMade = n := by
  have h := generateImageGo_ok_nil o n env (List.range n) (fun a _ => henv a)
  rw [generateImage, h]
  simp

/-- C10 witness: the default `max_retries = 5` run on empty responses. -/
theorem c10_empty_image_response_witness :
    (generateImage "o" 5 okNilEnv).success = false
    ∧ (generateImage "o" 5 okNilEnv).written = []
    ∧ (generateImage "o" 5 okNilEnv).attemptsMade = 5 :=
  c10_empty_image_response "o" 5 okNilEnv (fun _ => rfl)

/-! ## C5 — stage boundaries and exceptions -/

/-- C5: counterexample.  In `create_fallback_video` the only exception class
caught is `subprocess.CalledProcessError`; an error of launching the media
tool itself (e.g. `FileNotFoundError` when the binary is absent) propagates
out of the stage function instead of being returned as `False`. -/
theorem c5_counterexample :
    createFallbackOutcome (SubprocEvent.oserror "FileNotFoundError: ffmpeg")
      = StageOutcome.raises (PyExc.otherException "FileNotFoundError: ffmpeg") :=
  rfl

/-- C5 (amended): the image, animation and caption-overlay stages catch every
exception and return a Boolean, and the fallback and assembly stages return
`False` on the tool's non-zero exit; but in the fallback and assembly stages
any other error of the tool invocation propagates as an exception. -/
theorem c5_amended (ev : SubprocEvent) (s m : String) :
    (∃ b, addTextOverlayOutcome ev = StageOutcome.returns b)
    ∧ createFallbackOutcome SubprocEvent.exitZero = StageOutcome.returns true
    ∧ createFallbackOutcome (SubprocEvent.exitNonzero s)
        = StageOutcome.returns false
    ∧ createFallbackOutcome (SubprocEvent.oserror m)
        = StageOutcome.raises (PyExc.otherException m)
    ∧ concatenateVideosOutcome SubprocEvent.exitZero = StageOutcome.returns true
    ∧ concatenateVideosOutcome (SubprocEvent.exitNonzero s)
        = StageOutcome.returns false
    ∧ concatenateVideosOutcome (SubprocEvent.oserror m)
        = StageOutcome.raises (PyExc.otherException m) := by
  refine ⟨?_, rfl, rfl, rfl, rfl, rfl, rfl⟩
  cases ev <;> exact ⟨_, rfl⟩

/-! ## C9 — fallback duration and frame rate -/

/-- C9: for every motion preset (recognized or not) and requested duration
`d`, the fallback command uses a zoompan filter with frame count
`int(d * 25)`, carries `-t d`, and carries `-r 25`. -/
theorem c9_duration_framerate (img out : String) (d : ℚ) (m : String) :
    (∃ z x y, filterComplex d m = zoompanFilter z x y (pyInt (d * 25)))
    ∧ List.IsInfix ["-t", toString d] (createFallbackCmd img out d m)
    ∧ List.IsInfix ["-r", "25"] (createFallbackCmd img out d m) := by
  refine ⟨?_, ?_, ?_⟩
  · rw [filterComplex]
    split_ifs <;> exact ⟨_, _, _, rfl⟩
  · exact ⟨["ffmpeg", "-y", "-loop", "1", "-i", img, "-filter_complex",
      filterComplex d m, "-map", "[v]", "-c:v", "libx264"],
      ["-pix_fmt", "yuv420p", "-r", "25", out], rfl⟩
  · exact ⟨["ffmpeg", "-y", "-loop", "1", "-i", img, "-filter_complex",
      filterComplex d m, "-map", "[v]", "-c:v", "libx264",
      "-t", toString d, "-pix_fmt", "yuv420p"], [out], rfl⟩

/-! ## C1 — the unrecognized-preset branch -/

/-- C1: counterexample.  At duration 6 the command built for an unrecognized
preset differs from the one built for `slow zoom-in`: the default branch caps
the zoom at 1.1, the `slow zoom-in` branch at 1.12. -/
theorem c1_counterexample :
    createFallbackCmd "scene.png" "scene.mp4" 6 "unrecognized"
      ≠ createFallbackCmd "scene.png" "scene.mp4" 6 "slow zoom-in" := by
  decide

/-- C1 (amended): an unrecognized preset name selects the default motion law,
whose command is identical to the `slow zoom-in` command except that the
zoompan magnification cap is 1.1 instead of 1.12 (same zoom rate 0.0003,
same centering, same frame count, duration and frame rate). -/
theorem c1_amended (img out : String) (d : ℚ) (m : String)
    (hm : isRecognizedMotion m = false) :
    createFallbackCmd img out d m =
      ["ffmpeg", "-y", "-loop", "1", "-i", img, "-filter_complex",
        zoompanFilter "min(zoom+0.0003,1.1)" "iw/2-(iw/zoom/2)"
          "ih/2-(ih/zoom/2)" (pyInt (d * 25)),
        "-map", "[v]", "-c:v", "libx264", "-t", toString d,
        "-pix_fmt", "yuv420p", "-r", "25", out]
    ∧ createFallbackCmd img out d "slow zoom-in" =
      ["ffmpeg", "-y", "-loop", "1", "-i", img, "-filter_complex",
        zoompanFilter "min(zoom+0.0003,1.12)" "iw/2-(iw/zoom/2)"
          "ih/2-(ih/zoom/2)" (pyInt (d * 25)),
        "-map", "[v]", "-c:v", "libx264", "-t", toString d,
        "-pix_fmt", "yuv420p", "-r", "25", out] := by
  rw [isRecognizedMotion] at hm
  simp only [Bool.or_eq_false_iff, decide_eq_false_iff_not] at hm
  obtain ⟨⟨⟨h1, h2⟩, h3⟩, h4⟩ := hm
  constructor
  · rw [createFallbackCmd, filterComplex, if_neg h1, if_neg h2, if_neg h3,
      if_neg h4]
  · rfl

/-- C1 witness: the default-branch command at a concrete unrecognized
preset. -/
theorem c1_amended_witness :
    createFallbackCmd "scene.png" "scene.mp4" 6 "spin" =
      ["ffmpeg", "-y", "-loop", "1", "-i", "scene.png", "-filter_complex",
        zoompanFilter "min(zoom+0.0003,1.1)" "iw/2-(iw/zoom/2)"
          "ih/2-(ih/zoom/2)" (pyInt (6 * 25)),
        "-map", "[v]", "-c:v", "libx264", "-t", toString (6 : ℚ),
        "-pix_fmt", "yuv420p", "-r", "25", "scene.mp4"] :=
  (c1_amended "scene.png" "scene.mp4" 6 "spin" (by decide)).1

/-! ## Orchestrator lemmas -/

/-- A scene step never turns the animation flag back on. -/
theorem stepScene_false_flag (v : List String) (s : Scene) (env : SceneEnv) :
    (stepScene false v s env).1 = false := by
  rcases env with ⟨rie, rve, io, vo, fo, oo⟩
  cases rie <;> cases rve <;> cases io <;> cases vo <;> cases fo <;> cases oo <;>
    simp [stepScene]

/-- With the animation flag cleared, a scene step never invokes the
animation stage. -/
theorem stepScene_false_noVeo (v : List String) (s : Scene) (env : SceneEnv) :
    hasVeoCall (stepScene false v s env).2.2 = false := by
  rcases env with ⟨rie, rve, io, vo, fo, oo⟩
  cases rie <;> cases rve <;> cases io <;> cases vo <;> cases fo <;> cases oo <;>
    simp [stepScene, hasVeoCall]

/-- A scene step never invokes the assembly step. -/
theorem stepScene_no_concat (u : Bool) (v : List String) (s : Scene)
    (env : SceneEnv) :
    hasConcatCall (stepScene u v s env).2.2 = false := by
  rcases env with ⟨rie, rve, io, vo, fo, oo⟩
  cases u <;> cases rie <;> cases rve <;> cases io <;> cases vo <;> cases fo <;>
    cases oo <;> simp [stepScene, hasConcatCall]

/-- Once the animation flag is cleared it stays cleared for the rest of the
run. -/
theorem runScenes_false_flag (v : List String) (l : List (Scene × SceneEnv)) :
    (runScenes false v l).1 = false := by
  induction l generalizing v with
  | nil => rfl
  | cons p t ih =>
      rcases p with ⟨s, env⟩
      simp [runScenes, stepScene_false_flag, ih]

/-- Once the animation flag is cleared, no later scene invokes the animation
stage. -/
theorem runScenes_false_noVeo (v : List String)
    (l : List (Scene × SceneEnv)) :
    hasVeoCall (runScenes false v l).2.2 = false := by
  induction l generalizing v with
  | nil => rfl
  | cons p t ih =>
      rcases p with ⟨s, env⟩
      simp [runScenes, hasVeoCall_append, stepScene_false_noVeo,
        stepScene_false_flag, ih]

/-- The scene loop never invokes the assembly step. -/
theorem runScenes_no_concat (u : Bool) (v : List String)
    (l : List (Scene × SceneEnv)) :
    hasConcatCall (runScenes u v l).2.2 = false := by
  induction l generalizing u v with
  | nil => rfl
  | cons p t ih =>
      rcases p with ⟨s, env⟩
      simp [runScenes, hasConcatCall_append, stepScene_no_concat, ih]

/-! ## C2 — monotonicity of the animation flag -/

/-- First scene of the C2 run: its animation attempt fails, clearing the
flag. -/
def c2SceneA : Scene := ⟨1, "tA", "oA", "slow zoom-in", "pA"⟩

/-- Second scene of the C2 run: its raw-video artifact already exists. -/
def c2SceneB : Scene := ⟨2, "tB", "oB", "slow follow", "pB"⟩

/-- Environment of the first C2 scene: image present, no video, animation
fails, fallback and overlay succeed. -/
def c2EnvA : SceneEnv := ⟨true, false, true, false, true, true⟩

/-- Environment of the second C2 scene: image and raw video both present. -/
def c2EnvB : SceneEnv := ⟨true, true, true, true, true, true⟩

/-- The two-scene C2 run, started with the animation flag set. -/
def c2Trace : Bool × List String × List Call :=
  runScenes true [] [(c2SceneA, c2EnvA), (c2SceneB, c2EnvB)]

/-- C2: counterexample.  In a run whose first scene's animation attempt fails
(the flag ends the run cleared and a fallback is used for scene 1), the
subsequent scene 2 — whose raw-video artifact already exists — is *not*
routed to the deterministic fallback stage: no fallback invocation writing
scene 2's raw video occurs. -/
theorem c2_counterexample :
    hasVeoCall c2Trace.2.2 = true
    ∧ c2Trace.1 = false
    ∧ hasFallbackTo (rawVideoPath 1) c2Trace.2.2 = true
    ∧ hasFallbackTo (rawVideoPath 2) c2Trace.2.2 = false := by
  decide

/-- C2 (amended): the `use_veo` flag is monotone — a scene step can only
clear it, and a failed animation attempt does clear it; once cleared it stays
cleared for the whole rest of the run and the animation stage is never
invoked again; a subsequent scene is routed straight to the fallback stage
whenever it has to produce a video (its raw-video artifact is absent and its
image is available). -/
theorem c2_amended (u : Bool) (v : List String) (s : Scene) (env : SceneEnv)
    (l : List (Scene × SceneEnv)) :
    ((stepScene u v s env).1 = true → u = true)
    ∧ (u = true → env.rawVideoExists = false → env.veoOk = false →
        (env.rawImageExists = true ∨ env.imageOk = true) →
        (stepScene u v s env).1 = false)
    ∧ (runScenes false v l).1 = false
    ∧ hasVeoCall (runScenes false v l).2.2 = false
    ∧ (u = false → env.rawVideoExists = false →
        (env.rawImageExists = true ∨ env.imageOk = true) →
        hasFallbackTo (rawVideoPath s.id) (stepScene u v s env).2.2 = true) := by
  refine ⟨?_, ?_, runScenes_false_flag v l, runScenes_false_noVeo v l, ?_⟩
  · intro h
    cases u with
    | false => rw [stepScene_false_flag] at h; exact h
    | true => rfl
  · intro hu hrv hvo him
    subst hu
    rcases env with ⟨rie, rve, io, vo, fo, oo⟩
    cases rie <;> cases rve <;> cases io <;> cases vo <;> cases fo <;>
      cases oo <;> simp_all [stepScene]
  · intro hu hrv him
    subst hu
    rcases env with ⟨rie, rve, io, vo, fo, oo⟩
    cases rie <;> cases rve <;> cases io <;> cases vo <;> cases fo <;>
      cases oo <;> simp_all [stepScene, hasFallbackTo]

/-- C2 witness: a failed animation attempt clears the flag, and with the
flag cleared a video-less scene is routed to the fallback stage. -/
theorem c2_amended_witness :
    (stepScene true [] c2SceneA c2EnvA).1 = false
    ∧ hasFallbackTo (rawVideoPath 1) (stepScene false [] c2SceneA c2EnvA).2.2
        = true :=
  ⟨(c2_amended true [] c2SceneA c2EnvA []).2.1 rfl rfl rfl (Or.inl rfl),
   (c2_amended false [] c2SceneA c2EnvA []).2.2.2.2 rfl rfl (Or.inl rfl)⟩

/-! ## C6 — caption overlay failure is non-fatal -/

/-- C6: if the scene reaches the caption-overlay step, overlay success
appends the captioned path to `scene_videos` and overlay failure appends the
uncaptioned raw-video path; either way the scene contributes and the run
continues. -/
theorem c6_overlay_failure (u : Bool) (v : List String) (s : Scene)
    (env : SceneEnv)
    (hreach : Call.overlay (rawVideoPath s.id) (finalVideoPath s.id) s.text
        ∈ (stepScene u v s env).2.2) :
    (env.overlayOk = true →
      (stepScene u v s env).2.1 = v ++ [finalVideoPath s.id])
    ∧ (env.overlayOk = false →
      (stepScene u v s env).2.1 = v ++ [rawVideoPath s.id]) := by
  rcases env with ⟨rie, rve, io, vo, fo, oo⟩
  cases u <;> cases rie <;> cases rve <;> cases io <;> cases vo <;> cases fo <;>
    cases oo <;> simp_all [stepScene]

/-- Scene used by the C6 witness. -/
def c6Scene : Scene := ⟨1, "caption", "obj", "slow zoom-in", "prompt"⟩

/-- Environment of the C6 witness: both artifacts exist, overlay fails. -/
def c6EnvFail : SceneEnv := ⟨true, true, true, true, true, false⟩

/-- C6 witness: a concrete scene whose overlay fails contributes its raw
video. -/
theorem c6_overlay_failure_witness :
    (stepScene true [] c6Scene c6EnvFail).2.1 = [] ++ [rawVideoPath 1] :=
  (c6_overlay_failure true [] c6Scene c6EnvFail (by decide)).2 rfl

/-! ## C7 — image-stage resumability -/

/-- C7: when the image artifact already exists, the image stage is never
invoked for the scene, and every animation/fallback invocation of the step
reads its source image from that artifact's path. -/
theorem c7_resumable_image (u : Bool) (v : List String) (s : Scene)
    (env : SceneEnv) (h : env.rawImageExists = true) :
    hasGenImageCall (stepScene u v s env).2.2 = false
    ∧ callsUseImage (rawImagePath s.id) (stepScene u v s env).2.2 = true := by
  rcases env with ⟨rie, rve, io, vo, fo, oo⟩
  simp only at h
  subst h
  cases u <;> cases rve <;> cases io <;> cases vo <;> cases fo <;> cases oo <;>
    simp [stepScene, hasGenImageCall, callsUseImage]

/-- Scene used by the C7 witness. -/
def c7Scene : Scene := ⟨3, "t", "o", "upward tilt", "p"⟩

/-- Environment of the C7 witness: image artifact present, no raw video. -/
def c7Env : SceneEnv := ⟨true, false, false, false, true, true⟩

/-- C7 witness: a concrete scene with a pre-existing image artifact. -/
theorem c7_resumable_image_witness :
    hasGenImageCall (stepScene false [] c7Scene c7Env).2.2 = false
    ∧ callsUseImage (rawImagePath 3) (stepScene false [] c7Scene c7Env).2.2
        = true :=
  c7_resumable_image false [] c7Scene c7Env rfl

/-! ## C8 — no assembly when no scene contributed -/

/-- C8: if after all scenes `scene_videos` is empty, `concatenate_videos` is
never invoked and the run reports that no output was produced. -/
theorem c8_no_assembly (scenes : List (Scene × SceneEnv))
    (h : (mainRun scenes).sceneVideos = []) :
    hasConcatCall (mainRun scenes).calls = false
    ∧ (mainRun scenes).noOutputReported = true := by
  have hnc := runScenes_no_concat true [] scenes
  rcases hval : runScenes true [] scenes with ⟨fl, vids, cs⟩
  rw [hval] at hnc
  cases vids with
  | nil =>
      constructor
      · simpa [mainRun, hval] using hnc
      · simp [mainRun, hval]
  | cons x xs =>
      exfalso
      simp [mainRun, hval] at h

/-- Scene used by the C8 witness. -/
def c8Scene : Scene := ⟨1, "t", "o", "slow zoom-in", "p"⟩

/-- Environment of the C8 witness: nothing on disk and the image stage
fails, so the only scene is abandoned. -/
def c8Env : SceneEnv := ⟨false, false, false, false, false, false⟩

/-- C8 witness: a one-scene run in which the scene is abandoned. -/
theorem c8_no_assembly_witness :
    hasConcatCall (mainRun [(c8Scene, c8Env)]).calls = false
    ∧ (mainRun [(c8Scene, c8Env)]).noOutputReported = true :=
  c8_no_assembly [(c8Scene, c8Env)] (by decide)

end GenerateVideo
